import Mathlib

/-!
# Verification of the cluster convergence waiter of `verda/clusters/_clusters.py`

This file gives a shallow embedding of `ClustersService.create` (the polling /
backoff convergence waiter), `ClustersService.action` and
`ClustersService.delete` from `src/verda/clusters/_clusters.py`, and proves the
spec's claims about them.

Modelling choices:
* Real-valued times and intervals (Python floats) are embedded as rationals
  `ℚ`; `time.monotonic()` is an explicit clock threaded through the loop.
* `self.get_by_id(id)` inside the wait loop is modelled by a function
  `fetch : ℕ → Cluster` giving the snapshot returned by the i-th fetch, and a
  function `lat : ℕ → ℚ` giving the wall-clock time elapsed between the start
  of the i-th loop iteration and the `now = time.monotonic()` call of that
  iteration (the fetch latency).
* `itertools.count()` makes the Python loop unbounded, so the embedding takes
  a `fuel : ℕ` bound on the number of iterations; an outcome of `none` means
  the loop was still running when the fuel ran out.
* Raised exceptions are embedded as outcome constructors carrying exactly the
  data interpolated into the exception message.
* Observable effects (the POST, each fetch, each sleep) are recorded in a
  trace of `Event`s; `Event.sleep` records the clock at which the sleep
  starts and its duration.
-/

namespace Verda

/-- `CLUSTERS_ENDPOINT = '/clusters'` (line 11 of `_clusters.py`). -/
def CLUSTERS_ENDPOINT : String := "/clusters"

namespace ClusterStatus

/-- Modelled from the spec: the module `verda.constants` (class `ClusterStatus`)
is not under `src/`; the spec's §3 status vocabulary and the CLI colour table in
`src/verda/cli/commands/clusters.py` give the wire value `"error"`. -/
def ERROR : String := "error"

/-- Modelled from the spec: the module `verda.constants` (class `ClusterStatus`)
is not under `src/`; the spec's §3 status vocabulary and the CLI colour table in
`src/verda/cli/commands/clusters.py` give the wire value `"discontinued"`. -/
def DISCONTINUED : String := "discontinued"

/-- Modelled from the spec: the module `verda.constants` (class `ClusterStatus`)
is not under `src/`; the spec's §3 status vocabulary and the CLI colour table in
`src/verda/cli/commands/clusters.py` give the wire value `"provisioning"`. -/
def PROVISIONING : String := "provisioning"

end ClusterStatus

namespace Actions

/-- Modelled from the spec: the module `verda.constants` (class `Actions`) is
not under `src/`. The spec calls the public token `delete`, and
`ClustersService.delete` passes the literal `'delete'` to `action`, which
compares it against `Actions.DELETE`; consistency forces the value `"delete"`. -/
def DELETE : String := "delete"

end Actions

/-- The `ClusterWorkerNode` dataclass (lines 19-32 of `_clusters.py`). -/
structure ClusterWorkerNode where
  id : String
  status : String
  hostname : String
  private_ip : String
  deriving DecidableEq

/-- The `SharedVolume` dataclass (lines 37-50 of `_clusters.py`). -/
structure SharedVolume where
  id : String
  name : String
  size_in_gigabytes : Int
  mount_point : Option String := none
  deriving DecidableEq

/-- The `Cluster` dataclass (lines 55-86 of `_clusters.py`). -/
structure Cluster where
  id : String
  hostname : String
  description : String
  status : String
  created_at : String
  location : String
  cluster_type : String
  worker_nodes : List ClusterWorkerNode
  shared_volumes : List SharedVolume
  ssh_key_ids : List String
  image : Option String := none
  startup_script_id : Option String := none
  ip : Option String := none
  deriving DecidableEq

/-- An observable effect of `ClustersService.create`: the creating POST, a
`get_by_id` fetch (recording the status of the returned snapshot), or a
`time.sleep` (recording the monotonic clock at which it starts and its
duration). -/
inductive Event where
  | post (path : String)
  | fetchCluster (status : String)
  | sleep (start : ℚ) (duration : ℚ)
  deriving DecidableEq

/-- How `ClustersService.create` ends:
* `ok c` - the function returns the cluster snapshot `c`;
* `apiError msg` - `raise APIException(ErrorCodes.SERVER_ERROR, msg)`
  (lines 205 and 208 of `_clusters.py`);
* `timeoutError id max_wait_time` - `raise TimeoutError(...)` whose message
  interpolates the cluster `id` and the configured `max_wait_time`
  (lines 212-214 of `_clusters.py`). -/
inductive CreateOutcome where
  | ok (cluster : Cluster)
  | apiError (message : String)
  | timeoutError (id : String) (max_wait_time : ℚ)
  deriving DecidableEq

/-- The geometric backoff interval before deadline clamping:
`initial_interval * backoff_coefficient**i` capped by `max_interval`
(the first two arguments of the 3-way `min` on line 216 of `_clusters.py`). -/
def computedInterval (initial_interval backoff_coefficient max_interval : ℚ)
    (i : ℕ) : ℚ :=
  min (initial_interval * backoff_coefficient ^ i) max_interval

/-- The wait loop of `ClustersService.create` (lines 199-217 of
`_clusters.py`), run from iteration `i` at monotonic clock `clock` with at most
`fuel` more iterations. Returns the trace of events together with the outcome
(`none` when the fuel ran out with the loop still converging). -/
def waitLoop (fetch : ℕ → Cluster) (lat : ℕ → ℚ) (id : String)
    (wait_for_status : String)
    (max_wait_time initial_interval max_interval backoff_coefficient
      deadline : ℚ) :
    ℕ → ℕ → ℚ → List Event × Option CreateOutcome
  | 0, _, _ => ([], none)
  | fuel + 1, i, clock =>
    let cluster := fetch i
    let now := clock + lat i
    if cluster.status = wait_for_status then
      ([Event.fetchCluster cluster.status], some (CreateOutcome.ok cluster))
    else if cluster.status = ClusterStatus.ERROR then
      ([Event.fetchCluster cluster.status],
        some (CreateOutcome.apiError
          ("Cluster " ++ id ++ " entered error state")))
    else if cluster.status = ClusterStatus.DISCONTINUED then
      ([Event.fetchCluster cluster.status],
        some (CreateOutcome.apiError ("Cluster " ++ id ++ " was discontinued")))
    else if deadline ≤ now then
      ([Event.fetchCluster cluster.status],
        some (CreateOutcome.timeoutError id max_wait_time))
    else
      let interval :=
        min (computedInterval initial_interval backoff_coefficient
          max_interval i) (deadline - now)
      let rest := waitLoop fetch lat id wait_for_status max_wait_time
        initial_interval max_interval backoff_coefficient deadline fuel
        (i + 1) (now + interval)
      (Event.fetchCluster cluster.status :: Event.sleep now interval :: rest.1,
        rest.2)

/-- `ClustersService.create` after the creating POST returned id `id`
(lines 190-217 of `_clusters.py`). `t0` is the value of `time.monotonic()`
when the deadline is computed on line 198. Python's `if not wait_for_status`
is truthiness: both `None` and the empty string skip the wait and return a
single `get_by_id` fetch. -/
def create (fetch : ℕ → Cluster) (lat : ℕ → ℚ) (id : String)
    (wait_for_status : Option String)
    (max_wait_time initial_interval max_interval backoff_coefficient t0 : ℚ)
    (fuel : ℕ) : List Event × Option CreateOutcome :=
  match wait_for_status with
  | none =>
    ([Event.post CLUSTERS_ENDPOINT, Event.fetchCluster (fetch 0).status],
      some (CreateOutcome.ok (fetch 0)))
  | some s =>
    if s = "" then
      ([Event.post CLUSTERS_ENDPOINT, Event.fetchCluster (fetch 0).status],
        some (CreateOutcome.ok (fetch 0)))
    else
      let deadline := t0 + max_wait_time
      let rest := waitLoop fetch lat id s max_wait_time initial_interval
        max_interval backoff_coefficient deadline fuel 0 t0
      (Event.post CLUSTERS_ENDPOINT :: rest.1, rest.2)

/-- One `{id, action}` entry of the `actions` payload built by
`ClustersService.action` (lines 236-238 of `_clusters.py`). -/
structure ActionEntry where
  id : String
  action : String
  deriving DecidableEq

/-- A PUT request issued by `ClustersService.action`
(line 240 of `_clusters.py`). -/
structure PutRequest where
  path : String
  actions : List ActionEntry
  deriving DecidableEq

/-- `ClustersService.action` (lines 219-240 of `_clusters.py`): the list of
HTTP requests it issues, paired with the `ValueError` message when it raises
before any request. -/
def action (id_list : String ⊕ List String) (act : String) :
    List PutRequest × Option String :=
  if act ≠ Actions.DELETE then
    ([], some ("Invalid action: " ++ act ++ ". Only DELETE is supported."))
  else
    let wireAction := "discontinue"
    let payload :=
      match id_list with
      | Sum.inl s => [ActionEntry.mk s wireAction]
      | Sum.inr l => l.map fun id => ActionEntry.mk id wireAction
    ([PutRequest.mk CLUSTERS_ENDPOINT payload], none)

/-- `ClustersService.delete` (lines 242-248 of `_clusters.py`). -/
def delete (cluster_id : String) : List PutRequest × Option String :=
  action (Sum.inl cluster_id) "delete"

/-- The three semantic classes the waiter recognizes, per spec §3. -/
inductive StatusClass where
  | targetReached
  | terminalFailure
  | stillConverging
  deriving DecidableEq

/-- The status classification performed by the branch cascade of the wait loop
(lines 201-208 of `_clusters.py`), in the source's branch order. -/
def classifyStatus (target status : String) : StatusClass :=
  if status = target then StatusClass.targetReached
  else if status = ClusterStatus.ERROR then StatusClass.terminalFailure
  else if status = ClusterStatus.DISCONTINUED then StatusClass.terminalFailure
  else StatusClass.stillConverging

/-- A status on which the wait loop keeps polling: neither the target nor a
terminal-failure status. -/
def convergingStatus (target status : String) : Prop :=
  status ≠ target ∧ status ≠ ClusterStatus.ERROR ∧
    status ≠ ClusterStatus.DISCONTINUED

instance (target status : String) : Decidable (convergingStatus target status) :=
  inferInstanceAs (Decidable (_ ∧ _ ∧ _))

/-- Is the event a `get_by_id` fetch? -/
def isFetchEvent : Event → Bool
  | Event.fetchCluster _ => true
  | _ => false

/-- Is the event a `time.sleep`? -/
def isSleepEvent : Event → Bool
  | Event.sleep _ _ => true
  | _ => false

/-- Number of `get_by_id` fetches recorded in a trace. -/
def fetchCount (tr : List Event) : ℕ := tr.countP isFetchEvent

/-- Number of `time.sleep` calls recorded in a trace. -/
def sleepCount (tr : List Event) : ℕ := tr.countP isSleepEvent

/-- A sample cluster snapshot with the given id and status, used to evaluate
the model on concrete runs. -/
def mkCluster (id status : String) : Cluster where
  id := id
  hostname := "cluster-1"
  description := ""
  status := status
  created_at := "2025-01-01T00:00:00Z"
  location := "FIN-03"
  cluster_type := "A100"
  worker_nodes := []
  shared_volumes := []
  ssh_key_ids := []

/-! ## Step lemmas for the wait loop -/

section WaitLoopStep

variable (fetch : ℕ → Cluster) (lat : ℕ → ℚ) (id target : String)
  (maxWT initI maxI coeff deadline : ℚ)

/-- Unfolding the wait loop when the fetched status equals the target:
return the snapshot at once. -/
theorem waitLoop_step_target (fuel i : ℕ) (clock : ℚ)
    (h : (fetch i).status = target) :
    waitLoop fetch lat id target maxWT initI maxI coeff deadline
        (fuel + 1) i clock =
      ([Event.fetchCluster (fetch i).status],
        some (CreateOutcome.ok (fetch i))) := by
  simp only [waitLoop, if_pos h]

/-- Unfolding the wait loop on status `"error"` (not the target): raise the
`entered error state` API exception at once. -/
theorem waitLoop_step_error (fuel i : ℕ) (clock : ℚ)
    (h : (fetch i).status = ClusterStatus.ERROR)
    (hne : (fetch i).status ≠ target) :
    waitLoop fetch lat id target maxWT initI maxI coeff deadline
        (fuel + 1) i clock =
      ([Event.fetchCluster (fetch i).status],
        some (CreateOutcome.apiError
          ("Cluster " ++ id ++ " entered error state"))) := by
  simp only [waitLoop, if_neg hne, if_pos h]

/-- Unfolding the wait loop on status `"discontinued"` (not the target): raise
the `was discontinued` API exception at once. -/
theorem waitLoop_step_discontinued (fuel i : ℕ) (clock : ℚ)
    (h : (fetch i).status = ClusterStatus.DISCONTINUED)
    (hne : (fetch i).status ≠ target) :
    waitLoop fetch lat id target maxWT initI maxI coeff deadline
        (fuel + 1) i clock =
      ([Event.fetchCluster (fetch i).status],
        some (CreateOutcome.apiError
          ("Cluster " ++ id ++ " was discontinued"))) := by
  have herr : (fetch i).status ≠ ClusterStatus.ERROR := by
    rw [h]; intro hc; exact absurd hc (by decide)
  simp only [waitLoop, if_neg hne, if_neg herr, if_pos h]

/-- Unfolding the wait loop on a still-converging status at or past the
deadline: raise the timeout error, no further fetch or sleep. -/
theorem waitLoop_step_timeout (fuel i : ℕ) (clock : ℚ)
    (h : convergingStatus target (fetch i).status)
    (hd : deadline ≤ clock + lat i) :
    waitLoop fetch lat id target maxWT initI maxI coeff deadline
        (fuel + 1) i clock =
      ([Event.fetchCluster (fetch i).status],
        some (CreateOutcome.timeoutError id maxWT)) := by
  obtain ⟨h1, h2, h3⟩ := h
  simp only [waitLoop, if_neg h1, if_neg h2, if_neg h3, if_pos hd]

/-- Unfolding the wait loop on a still-converging status strictly before the
deadline: sleep the clamped interval and continue with iteration `i + 1`. -/
theorem waitLoop_step_converging (fuel i : ℕ) (clock : ℚ)
    (h : convergingStatus target (fetch i).status)
    (hd : clock + lat i < deadline) :
    waitLoop fetch lat id target maxWT initI maxI coeff deadline
        (fuel + 1) i clock =
      (Event.fetchCluster (fetch i).status ::
        Event.sleep (clock + lat i)
          (min (computedInterval initI coeff maxI i)
            (deadline - (clock + lat i))) ::
        (waitLoop fetch lat id target maxWT initI maxI coeff deadline fuel
          (i + 1) (clock + lat i +
            min (computedInterval initI coeff maxI i)
              (deadline - (clock + lat i)))).1,
      (waitLoop fetch lat id target maxWT initI maxI coeff deadline fuel
        (i + 1) (clock + lat i +
          min (computedInterval initI coeff maxI i)
            (deadline - (clock + lat i)))).2) := by
  obtain ⟨h1, h2, h3⟩ := h
  simp only [waitLoop, if_neg h1, if_neg h2, if_neg h3,
    if_neg (not_le.mpr hd)]

/-- Whatever branch is taken, the first event of a fueled wait-loop run is the
fetch of the current iteration: a status check always precedes any decision. -/
theorem waitLoop_head_fetch (fuel i : ℕ) (clock : ℚ) :
    ((waitLoop fetch lat id target maxWT initI maxI coeff deadline
        (fuel + 1) i clock).1).head? =
      some (Event.fetchCluster (fetch i).status) := by
  rw [waitLoop]
  split
  · rfl
  · split
    · rfl
    · split
      · rfl
      · split
        · rfl
        · rfl

end WaitLoopStep

/-! ## Global lemmas for the wait loop -/

section WaitLoopGlobal

variable (fetch : ℕ → Cluster) (lat : ℕ → ℚ) (id target : String)
  (maxWT initI maxI coeff deadline : ℚ)

/-- Every sleep recorded by the wait loop starts strictly before the deadline
and ends at or before it: the sleep duration is clamped by the remaining
budget `deadline - now`. -/
theorem waitLoop_sleep_le_deadline :
    ∀ (fuel i : ℕ) (clock s d : ℚ),
      Event.sleep s d ∈ (waitLoop fetch lat id target maxWT initI maxI coeff
        deadline fuel i clock).1 → s + d ≤ deadline := by
  intro fuel
  induction fuel with
  | zero =>
    intro i clock s d hmem
    simp [waitLoop] at hmem
  | succ n ih =>
    intro i clock s d hmem
    rw [waitLoop] at hmem
    split at hmem
    · simp at hmem
    · split at hmem
      · simp at hmem
      · split at hmem
        · simp at hmem
        · split at hmem
          · simp at hmem
          · rename_i hnotdl
            simp only [List.mem_cons] at hmem
            rcases hmem with h | h | h
            · exact absurd h (by simp)
            · rw [Event.sleep.injEq] at h
              obtain ⟨hs, hd⟩ := h
              have hle : min (computedInterval initI coeff maxI i)
                  (deadline - (clock + lat i)) ≤ deadline - (clock + lat i) :=
                min_le_right _ _
              rw [hs, hd]
              linarith
            · exact ih (i + 1) _ s d h

/-- If a fueled wait-loop run returns a snapshot, that snapshot is the fetch
of some iteration and its status equals the target: the waiter never treats a
non-target status as success. -/
theorem waitLoop_ok_status :
    ∀ (fuel i : ℕ) (clock : ℚ) (c : Cluster),
      (waitLoop fetch lat id target maxWT initI maxI coeff deadline
        fuel i clock).2 = some (CreateOutcome.ok c) →
      c.status = target ∧ ∃ j, c = fetch j := by
  intro fuel
  induction fuel with
  | zero =>
    intro i clock c h
    simp [waitLoop] at h
  | succ n ih =>
    intro i clock c h
    rw [waitLoop] at h
    split at h
    · rename_i htgt
      simp only [Option.some.injEq, CreateOutcome.ok.injEq] at h
      subst h
      exact ⟨htgt, i, rfl⟩
    · split at h
      · simp at h
      · split at h
        · simp at h
        · split at h
          · simp at h
          · exact ih (i + 1) _ c h

/-- If every fetched status is still-converging, the only possible decided
outcome of the wait loop is the timeout error carrying the cluster id and the
configured `max_wait_time`. -/
theorem waitLoop_converging_outcome
    (hconv : ∀ j, convergingStatus target (fetch j).status) :
    ∀ (fuel i : ℕ) (clock : ℚ) (r : CreateOutcome),
      (waitLoop fetch lat id target maxWT initI maxI coeff deadline
        fuel i clock).2 = some r →
      r = CreateOutcome.timeoutError id maxWT := by
  intro fuel
  induction fuel with
  | zero =>
    intro i clock r h
    simp [waitLoop] at h
  | succ n ih =>
    intro i clock r h
    rw [waitLoop] at h
    split at h
    · exact absurd (by assumption) (hconv i).1
    · split at h
      · exact absurd (by assumption) (hconv i).2.1
      · split at h
        · exact absurd (by assumption) (hconv i).2.2
        · split at h
          · simp only [Option.some.injEq] at h
            exact h.symm
          · exact ih (i + 1) _ r h

/-- If a fueled wait-loop run decides an outcome, the last recorded event is a
fetch: no sleep is computed or waited, and no further fetch is issued, after
the deciding observation. -/
theorem waitLoop_decided_last_event :
    ∀ (fuel i : ℕ) (clock : ℚ),
      ((waitLoop fetch lat id target maxWT initI maxI coeff deadline
        fuel i clock).2).isSome →
      ∃ s, ((waitLoop fetch lat id target maxWT initI maxI coeff deadline
        fuel i clock).1).getLast? = some (Event.fetchCluster s) := by
  intro fuel
  induction fuel with
  | zero =>
    intro i clock h
    simp [waitLoop] at h
  | succ n ih =>
    intro i clock h
    rw [waitLoop]
    rw [waitLoop] at h
    split
    · exact ⟨(fetch i).status, rfl⟩
    · split
      · exact ⟨(fetch i).status, rfl⟩
      · split
        · exact ⟨(fetch i).status, rfl⟩
        · split
          · exact ⟨(fetch i).status, rfl⟩
          · rename_i h1 h2 h3 h4
            rw [if_neg h1, if_neg h2, if_neg h3, if_neg h4] at h
            obtain ⟨s, hs⟩ := ih (i + 1) _ h
            refine ⟨s, ?_⟩
            rw [List.getLast?_cons_cons]
            exact Option.mem_def.mp
              (List.mem_getLast?_cons (Option.mem_def.mpr hs))

/-- With a positive initial interval below the cap and a backoff coefficient
at least 1, every sleep is at least `min initial_interval (deadline - now)`,
so the loop reaches its deadline check in at most
`(deadline - start) / initial_interval + 1` iterations: with that much fuel
and only still-converging statuses, the run decides an outcome. -/
theorem waitLoop_terminates
    (hconv : ∀ j, convergingStatus target (fetch j).status)
    (hlat : ∀ j, 0 ≤ lat j)
    (hinit : 0 < initI) (himax : initI ≤ maxI) (hcoeff : 1 ≤ coeff) :
    ∀ (n i : ℕ) (clock : ℚ),
      deadline - (clock + lat i) ≤ (n : ℚ) * initI →
      ((waitLoop fetch lat id target maxWT initI maxI coeff deadline
        (n + 1) i clock).2).isSome := by
  intro n
  induction n with
  | zero =>
    intro i clock hb
    have hd : deadline ≤ clock + lat i := by push_cast at hb; linarith
    rw [waitLoop_step_timeout fetch lat id target maxWT initI maxI coeff
      deadline 0 i clock (hconv i) hd]
    rfl
  | succ n ih =>
    intro i clock hb
    by_cases hd : deadline ≤ clock + lat i
    · rw [waitLoop_step_timeout fetch lat id target maxWT initI maxI coeff
        deadline (n + 1) i clock (hconv i) hd]
      rfl
    · push_neg at hd
      rw [waitLoop_step_converging fetch lat id target maxWT initI maxI coeff
        deadline (n + 1) i clock (hconv i) hd]
      apply ih
      have hpow : (1 : ℚ) ≤ coeff ^ i := one_le_pow₀ hcoeff
      have hgeo : initI ≤ initI * coeff ^ i :=
        le_mul_of_one_le_right hinit.le hpow
      have hci : initI ≤ computedInterval initI coeff maxI i :=
        le_min hgeo himax
      have hlat1 := hlat (i + 1)
      push_cast at hb ⊢
      rcases le_or_lt (deadline - (clock + lat i)) initI with hc | hc
      · have hdge : deadline - (clock + lat i) ≤
            min (computedInterval initI coeff maxI i)
              (deadline - (clock + lat i)) :=
          le_min (le_trans hc hci) le_rfl
        have hn : (0 : ℚ) ≤ (n : ℚ) * initI := by positivity
        linarith
      · have hdge : initI ≤
            min (computedInterval initI coeff maxI i)
              (deadline - (clock + lat i)) :=
          le_min hci hc.le
        linarith

end WaitLoopGlobal

/-! ## Unfolding lemmas for `create` -/

/-- With a non-falsy `wait_for_status`, `create` is the creating POST followed
by the wait loop started at iteration 0 with deadline `t0 + max_wait_time`. -/
theorem create_wait (fetch : ℕ → Cluster) (lat : ℕ → ℚ) (id : String)
    (s : String) (maxWT initI maxI coeff t0 : ℚ) (fuel : ℕ) (hs : s ≠ "") :
    create fetch lat id (some s) maxWT initI maxI coeff t0 fuel =
      (Event.post CLUSTERS_ENDPOINT ::
        (waitLoop fetch lat id s maxWT initI maxI coeff (t0 + maxWT)
          fuel 0 t0).1,
       (waitLoop fetch lat id s maxWT initI maxI coeff (t0 + maxWT)
          fuel 0 t0).2) := by
  simp only [create, if_neg hs]

/-! ## Claims -/

/-- C1: In every wait iteration `i` of `ClustersService.create` whose fetched
status is neither the target nor terminal and whose `now` is strictly before
the deadline, the iteration records its fetch and then a sleep whose duration
is exactly `min (initial_interval * backoff_coefficient ^ i) max_interval
(deadline - now)` (Python's 3-way `min`, grouped left); and, unconditionally,
every sleep recorded by the wait loop ends at or before the deadline — no
single sleep ever extends past it. -/
theorem C1_sleep_interval_is_clamped_min (fetch : ℕ → Cluster) (lat : ℕ → ℚ)
    (id target : String) (maxWT initI maxI coeff deadline : ℚ)
    (fuel i : ℕ) (clock : ℚ)
    (h : convergingStatus target (fetch i).status)
    (hd : clock + lat i < deadline) :
    ((waitLoop fetch lat id target maxWT initI maxI coeff deadline
        (fuel + 1) i clock).1.take 2 =
      [Event.fetchCluster (fetch i).status,
       Event.sleep (clock + lat i)
         (min (min (initI * coeff ^ i) maxI) (deadline - (clock + lat i)))])
    ∧ (∀ (fuel' i' : ℕ) (clock' s d : ℚ),
        Event.sleep s d ∈ (waitLoop fetch lat id target maxWT initI maxI coeff
          deadline fuel' i' clock').1 → s + d ≤ deadline) := by
  constructor
  · rw [waitLoop_step_converging fetch lat id target maxWT initI maxI coeff
      deadline fuel i clock h hd]
    simp [computedInterval]
  · exact waitLoop_sleep_le_deadline fetch lat id target maxWT initI maxI
      coeff deadline

/-- Witness for C1: status `"ordered"` while waiting for `"provisioning"`,
`initial_interval = 1`, `max_interval = 10`, `backoff_coefficient = 2`,
deadline 5 at clock 0: the iteration sleeps `min (min (1*2^0) 10) (5-0) = 1`. -/
theorem C1_witness :
    convergingStatus "provisioning" (mkCluster "c1" "ordered").status ∧
    ((0 : ℚ) + 0 < 5) ∧
    (waitLoop (fun _ => mkCluster "c1" "ordered") (fun _ => 0) "c1"
        "provisioning" 5 1 10 2 5 1 0 0).1.take 2 =
      [Event.fetchCluster "ordered", Event.sleep 0 1] := by
  refine ⟨by decide, by norm_num, ?_⟩
  have h := (C1_sleep_interval_is_clamped_min
    (fun _ => mkCluster "c1" "ordered") (fun _ => 0) "c1" "provisioning"
    5 1 10 2 5 0 0 0 (by decide) (by norm_num)).1
  norm_num [mkCluster] at h
  exact h

/-- C2: with `deadline = t0 + max_wait_time` (so `deadline ≤ now` is exactly
"elapsed time since wait start reaches `max_wait_time`") and a fetch behavior
that always yields a still-converging status:
(a) at the first check with `now` at or past the deadline, the waiter raises
the timeout error naming the cluster id and the configured `max_wait_time`,
its iteration recording exactly the one fetch and nothing after it;
(b) strictly before the deadline a check never declares timeout — the loop
sleeps and continues;
(c) a fetch always precedes any decision (even when `max_wait_time` is 0);
(d) any decided outcome is that timeout error;
(e) no fetch or sleep is recorded after the decision (the last event of a
decided run is the deciding fetch);
(f) under the spec's policy invariant (`0 < initial_interval ≤ max_interval`,
`backoff_coefficient ≥ 1`, nonnegative fetch latencies) enough fuel always
reaches a decision, so the waiter does raise the timeout. -/
theorem C2_timeout_exactly_at_deadline (fetch : ℕ → Cluster) (lat : ℕ → ℚ)
    (id target : String) (maxWT initI maxI coeff t0 : ℚ)
    (hconv : ∀ j, convergingStatus target (fetch j).status) :
    (∀ (fuel i : ℕ) (clock : ℚ), t0 + maxWT ≤ clock + lat i →
      waitLoop fetch lat id target maxWT initI maxI coeff (t0 + maxWT)
          (fuel + 1) i clock =
        ([Event.fetchCluster (fetch i).status],
          some (CreateOutcome.timeoutError id maxWT)))
    ∧ (∀ (fuel i : ℕ) (clock : ℚ), clock + lat i < t0 + maxWT →
        (waitLoop fetch lat id target maxWT initI maxI coeff (t0 + maxWT)
          (fuel + 1) i clock).2 =
        (waitLoop fetch lat id target maxWT initI maxI coeff (t0 + maxWT)
          fuel (i + 1) (clock + lat i +
            min (computedInterval initI coeff maxI i)
              (t0 + maxWT - (clock + lat i)))).2)
    ∧ (∀ (fuel i : ℕ) (clock : ℚ),
        ((waitLoop fetch lat id target maxWT initI maxI coeff (t0 + maxWT)
          (fuel + 1) i clock).1).head? =
          some (Event.fetchCluster (fetch i).status))
    ∧ (∀ (fuel i : ℕ) (clock : ℚ) (r : CreateOutcome),
        (waitLoop fetch lat id target maxWT initI maxI coeff (t0 + maxWT)
          fuel i clock).2 = some r → r = CreateOutcome.timeoutError id maxWT)
    ∧ (∀ (fuel i : ℕ) (clock : ℚ),
        ((waitLoop fetch lat id target maxWT initI maxI coeff (t0 + maxWT)
          fuel i clock).2).isSome →
        ∃ s, ((waitLoop fetch lat id target maxWT initI maxI coeff (t0 + maxWT)
          fuel i clock).1).getLast? = some (Event.fetchCluster s))
    ∧ ((∀ j, 0 ≤ lat j) → 0 < initI → initI ≤ maxI → 1 ≤ coeff →
        ∀ (n i : ℕ) (clock : ℚ),
          t0 + maxWT - (clock + lat i) ≤ (n : ℚ) * initI →
          ((waitLoop fetch lat id target maxWT initI maxI coeff (t0 + maxWT)
            (n + 1) i clock).2).isSome) := by
  refine ⟨?_, ?_, ?_, ?_, ?_, ?_⟩
  · intro fuel i clock hd
    exact waitLoop_step_timeout fetch lat id target maxWT initI maxI coeff
      (t0 + maxWT) fuel i clock (hconv i) hd
  · intro fuel i clock hd
    rw [waitLoop_step_converging fetch lat id target maxWT initI maxI coeff
      (t0 + maxWT) fuel i clock (hconv i) hd]
  · intro fuel i clock
    exact waitLoop_head_fetch fetch lat id target maxWT initI maxI coeff
      (t0 + maxWT) fuel i clock
  · exact waitLoop_converging_outcome fetch lat id target maxWT initI maxI
      coeff (t0 + maxWT) hconv
  · exact waitLoop_decided_last_event fetch lat id target maxWT initI maxI
      coeff (t0 + maxWT)
  · intro hlat hinit himax hcoeff
    exact waitLoop_terminates fetch lat id target maxWT initI maxI coeff
      (t0 + maxWT) hconv hlat hinit himax hcoeff

/-- Witness for C2: `max_wait_time = 0` and an always-`"ordered"` fetch: the
very first check raises the timeout naming the id and the 0-second budget,
after exactly one fetch. -/
theorem C2_witness :
    (∀ j, convergingStatus "provisioning"
      ((fun _ : ℕ => mkCluster "c1" "ordered") j).status) ∧
    waitLoop (fun _ => mkCluster "c1" "ordered") (fun _ => 0) "c1"
        "provisioning" 0 1 10 2 (0 + 0) 1 0 0 =
      ([Event.fetchCluster "ordered"],
        some (CreateOutcome.timeoutError "c1" 0)) := by
  have hone : convergingStatus "provisioning"
      (mkCluster "c1" "ordered").status := by decide
  refine ⟨fun _ => hone, ?_⟩
  have h := (C2_timeout_exactly_at_deadline
    (fun _ => mkCluster "c1" "ordered") (fun _ => 0) "c1" "provisioning"
    0 1 10 2 0 (fun _ => hone)).1 0 0 0 (by norm_num)
  simpa [mkCluster] using h

/-- C3: from any wait-loop state whose fetched status is terminal (`"error"`
or `"discontinued"`) and is not the target, the waiter immediately raises the
APIException naming the resource id and describing the observed terminal
status — the remaining trace is exactly that one fetch, so no sleep is
computed or waited and no further fetch occurs — and the raised error is not
the TimeoutError. -/
theorem C3_terminal_failure_fails_fast (fetch : ℕ → Cluster) (lat : ℕ → ℚ)
    (id target : String) (maxWT initI maxI coeff deadline : ℚ)
    (fuel i : ℕ) (clock : ℚ)
    (hterm : (fetch i).status = ClusterStatus.ERROR ∨
      (fetch i).status = ClusterStatus.DISCONTINUED)
    (hne : (fetch i).status ≠ target) :
    (waitLoop fetch lat id target maxWT initI maxI coeff deadline
        (fuel + 1) i clock =
      ([Event.fetchCluster (fetch i).status],
        some (CreateOutcome.apiError
          (if (fetch i).status = ClusterStatus.ERROR
           then "Cluster " ++ id ++ " entered error state"
           else "Cluster " ++ id ++ " was discontinued"))))
    ∧ (∀ (id' : String) (mt : ℚ),
        (waitLoop fetch lat id target maxWT initI maxI coeff deadline
          (fuel + 1) i clock).2 ≠
          some (CreateOutcome.timeoutError id' mt)) := by
  have hmain : waitLoop fetch lat id target maxWT initI maxI coeff deadline
      (fuel + 1) i clock =
      ([Event.fetchCluster (fetch i).status],
        some (CreateOutcome.apiError
          (if (fetch i).status = ClusterStatus.ERROR
           then "Cluster " ++ id ++ " entered error state"
           else "Cluster " ++ id ++ " was discontinued"))) := by
    rcases hterm with herr | hdis
    · rw [if_pos herr]
      exact waitLoop_step_error fetch lat id target maxWT initI maxI coeff
        deadline fuel i clock herr hne
    · have herr' : (fetch i).status ≠ ClusterStatus.ERROR := by
        rw [hdis]; intro hc; exact absurd hc (by decide)
      rw [if_neg herr']
      exact waitLoop_step_discontinued fetch lat id target maxWT initI maxI
        coeff deadline fuel i clock hdis hne
  refine ⟨hmain, ?_⟩
  intro id' mt
  rw [hmain]
  simp

/-- Witness for C3: spec scenario 8 — fetch sequence `"ordered", "error"`
while waiting for `"running"`: from the observation of `"error"` at iteration
1 the run is exactly one fetch and the `entered error state` APIException,
with no sleep and no timeout. -/
theorem C3_witness :
    ((fun j : ℕ => if j = 0 then mkCluster "c1" "ordered"
        else mkCluster "c1" "error") 1).status = ClusterStatus.ERROR ∧
    waitLoop (fun j => if j = 0 then mkCluster "c1" "ordered"
        else mkCluster "c1" "error") (fun _ => 0) "c1" "running"
        30 1 10 2 30 5 1 1 =
      ([Event.fetchCluster "error"],
        some (CreateOutcome.apiError "Cluster c1 entered error state")) := by
  refine ⟨by decide, ?_⟩
  have h := (C3_terminal_failure_fails_fast
    (fun j => if j = 0 then mkCluster "c1" "ordered"
      else mkCluster "c1" "error") (fun _ => 0) "c1" "running"
    30 1 10 2 30 4 1 1 (Or.inl (by decide)) (by decide)).1
  simpa [mkCluster, ClusterStatus.ERROR] using h

/-- C4: if the first fetch after creation already returns the (non-empty)
target status, `create` returns that snapshot having performed exactly one
post-create fetch and without recording any sleep. -/
theorem C4_immediate_success_no_sleep (fetch : ℕ → Cluster) (lat : ℕ → ℚ)
    (id s : String) (maxWT initI maxI coeff t0 : ℚ) (fuel : ℕ)
    (hs : s ≠ "") (h0 : (fetch 0).status = s) :
    (create fetch lat id (some s) maxWT initI maxI coeff t0 (fuel + 1) =
      ([Event.post CLUSTERS_ENDPOINT, Event.fetchCluster (fetch 0).status],
        some (CreateOutcome.ok (fetch 0))))
    ∧ fetchCount (create fetch lat id (some s) maxWT initI maxI coeff t0
        (fuel + 1)).1 = 1
    ∧ sleepCount (create fetch lat id (some s) maxWT initI maxI coeff t0
        (fuel + 1)).1 = 0 := by
  have hmain : create fetch lat id (some s) maxWT initI maxI coeff t0
      (fuel + 1) =
      ([Event.post CLUSTERS_ENDPOINT, Event.fetchCluster (fetch 0).status],
        some (CreateOutcome.ok (fetch 0))) := by
    rw [create_wait fetch lat id s maxWT initI maxI coeff t0 (fuel + 1) hs,
      waitLoop_step_target fetch lat id s maxWT initI maxI coeff (t0 + maxWT)
        fuel 0 t0 h0]
  refine ⟨hmain, ?_, ?_⟩ <;>
    simp [hmain, fetchCount, sleepCount, isFetchEvent, isSleepEvent]

/-- Witness for C4: waiting for `"provisioning"` and the first fetch already
returns `"provisioning"`: one fetch, no sleep, the snapshot is returned. -/
theorem C4_witness :
    ("provisioning" ≠ "") ∧
    (mkCluster "c1" "provisioning").status = "provisioning" ∧
    create (fun _ => mkCluster "c1" "provisioning") (fun _ => 0) "c1"
        (some "provisioning") 900 1 10 2 0 8 =
      ([Event.post CLUSTERS_ENDPOINT, Event.fetchCluster "provisioning"],
        some (CreateOutcome.ok (mkCluster "c1" "provisioning"))) := by
  refine ⟨by decide, by decide, ?_⟩
  have h := (C4_immediate_success_no_sleep
    (fun _ => mkCluster "c1" "provisioning") (fun _ => 0) "c1" "provisioning"
    900 1 10 2 0 7 (by decide) (by decide)).1
  simpa [mkCluster] using h

/-- Counterexample to C5 as stated: with `wait_for_status = None` and every
fetch still returning the initial placeholder status `"ordered"`, `create`
does not keep polling until the status differs from the placeholder — it
returns the placeholder-status snapshot immediately as success after a single
fetch, with no sleep. -/
theorem C5_counterexample :
    (create (fun _ => mkCluster "c1" "ordered") (fun _ => 0) "c1" none
        900 1 10 2 0 100).2 =
      some (CreateOutcome.ok (mkCluster "c1" "ordered")) ∧
    (mkCluster "c1" "ordered").status = "ordered" ∧
    fetchCount (create (fun _ => mkCluster "c1" "ordered") (fun _ => 0) "c1"
        none 900 1 10 2 0 100).1 = 1 ∧
    sleepCount (create (fun _ => mkCluster "c1" "ordered") (fun _ => 0) "c1"
        none 900 1 10 2 0 100).1 = 0 := by
  refine ⟨?_, by decide, ?_, ?_⟩ <;>
    simp [create, fetchCount, sleepCount, isFetchEvent, isSleepEvent,
      mkCluster]

/-- C5 (amended): when `wait_for_status` is `None`, no polling loop runs at
all: `create` issues the POST and a single `get_by_id` fetch and returns that
first snapshot as success regardless of its status — in particular even while
the status still equals the initial placeholder — with no sleep. -/
theorem C5_amended_none_returns_first_snapshot (fetch : ℕ → Cluster)
    (lat : ℕ → ℚ) (id : String) (maxWT initI maxI coeff t0 : ℚ) (fuel : ℕ) :
    (create fetch lat id none maxWT initI maxI coeff t0 fuel).2 =
      some (CreateOutcome.ok (fetch 0)) ∧
    fetchCount (create fetch lat id none maxWT initI maxI coeff t0 fuel).1
      = 1 ∧
    sleepCount (create fetch lat id none maxWT initI maxI coeff t0 fuel).1
      = 0 := by
  refine ⟨rfl, ?_, ?_⟩ <;>
    simp [create, fetchCount, sleepCount, isFetchEvent, isSleepEvent]

/-- C6: with wait policy none (`wait_for_status = None`), `create` returns
immediately after the mutating POST plus exactly one fetch of the resource by
its freshly assigned id: the whole trace is the POST and that single fetch,
with no wait and no sleep, and the outcome is that first snapshot. -/
theorem C6_none_means_post_plus_one_fetch (fetch : ℕ → Cluster) (lat : ℕ → ℚ)
    (id : String) (maxWT initI maxI coeff t0 : ℚ) (fuel : ℕ) :
    create fetch lat id none maxWT initI maxI coeff t0 fuel =
      ([Event.post CLUSTERS_ENDPOINT, Event.fetchCluster (fetch 0).status],
        some (CreateOutcome.ok (fetch 0))) := rfl

/-- C7: for `0 ≤ initial_interval` (the spec's policy invariant even demands
`0 < initial_interval`) and `backoff_coefficient ≥ 1`, the pre-clamping
interval sequence `min (initial_interval * backoff_coefficient ^ i)
max_interval` is monotonically non-decreasing and capped at `max_interval`,
and for `initial_interval = 1`, `backoff_coefficient = 2`,
`max_interval = 10` it is `1, 2, 4, 8, 10, 10, 10, ...`. -/
theorem C7_backoff_monotone_and_capped (initI coeff maxI : ℚ)
    (hinit : 0 ≤ initI) (hcoeff : 1 ≤ coeff) :
    (∀ i : ℕ, computedInterval initI coeff maxI i ≤
      computedInterval initI coeff maxI (i + 1))
    ∧ (∀ i : ℕ, computedInterval initI coeff maxI i ≤ maxI)
    ∧ (computedInterval 1 2 10 0 = 1 ∧ computedInterval 1 2 10 1 = 2 ∧
       computedInterval 1 2 10 2 = 4 ∧ computedInterval 1 2 10 3 = 8 ∧
       ∀ i : ℕ, 4 ≤ i → computedInterval 1 2 10 i = 10) := by
  refine ⟨?_, ?_, ?_, ?_, ?_, ?_, ?_⟩
  · intro i
    unfold computedInterval
    refine min_le_min ?_ le_rfl
    exact mul_le_mul_of_nonneg_left
      (pow_le_pow_right₀ hcoeff (Nat.le_succ i)) hinit
  · intro i
    exact min_le_right _ _
  · norm_num [computedInterval]
  · norm_num [computedInterval]
  · norm_num [computedInterval]
  · norm_num [computedInterval]
  · intro i hi
    have h16 : (2 : ℚ) ^ 4 ≤ 2 ^ i := pow_le_pow_right₀ (by norm_num) hi
    have h10 : (10 : ℚ) ≤ 1 * 2 ^ i := by norm_num at h16 ⊢; linarith
    rw [computedInterval, min_eq_right h10]

/-- Witness for C7: at the standard policy the sequence is non-decreasing at
step 0 and equals the cap from index 4 on (checked at index 5). -/
theorem C7_witness :
    ((0 : ℚ) ≤ 1) ∧ ((1 : ℚ) ≤ 2) ∧
    computedInterval 1 2 10 0 ≤ computedInterval 1 2 10 1 ∧
    computedInterval 1 2 10 5 = 10 := by
  have h := C7_backoff_monotone_and_capped 1 2 10 (by norm_num) (by norm_num)
  exact ⟨by norm_num, by norm_num, h.1 0, h.2.2.2.2.2.2 5 (by norm_num)⟩

/-- C8: the branch cascade of the wait loop classifies every status string
into exactly one of the three classes — target-reached exactly when the
status equals the target, terminal-failure exactly when it is `"error"` or
`"discontinued"` but not the target, and still-converging exactly otherwise
(so an unrecognized status is still-converging) — and globally the waiter
never returns a snapshot as success whose status is not the target. -/
theorem C8_status_classification_trichotomy (target status : String) :
    (classifyStatus target status = StatusClass.targetReached ↔
      status = target)
    ∧ (classifyStatus target status = StatusClass.terminalFailure ↔
        status ≠ target ∧ (status = ClusterStatus.ERROR ∨
          status = ClusterStatus.DISCONTINUED))
    ∧ (classifyStatus target status = StatusClass.stillConverging ↔
        convergingStatus target status)
    ∧ (∀ (fetch : ℕ → Cluster) (lat : ℕ → ℚ) (id : String)
        (maxWT initI maxI coeff deadline clock : ℚ) (fuel i : ℕ) (c : Cluster),
        (waitLoop fetch lat id target maxWT initI maxI coeff deadline
          fuel i clock).2 = some (CreateOutcome.ok c) →
        c.status = target) := by
  refine ⟨?_, ?_, ?_, ?_⟩
  · unfold classifyStatus
    split_ifs with h1 h2 h3 <;> simp_all
  · unfold classifyStatus
    split_ifs with h1 h2 h3 <;> simp_all
  · unfold classifyStatus convergingStatus
    split_ifs with h1 h2 h3 <;> simp_all
  · intro fetch lat id maxWT initI maxI coeff deadline clock fuel i c h
    exact (waitLoop_ok_status fetch lat id target maxWT initI maxI coeff
      deadline fuel i clock c h).1

/-- Witness for C8: the unrecognized status `"mystery"` is still-converging,
and a concrete successful run returns a snapshot whose status is the target. -/
theorem C8_witness :
    (classifyStatus "provisioning" "mystery" = StatusClass.stillConverging ↔
      convergingStatus "provisioning" "mystery") ∧
    ((waitLoop (fun _ => mkCluster "c1" "provisioning") (fun _ => 0) "c1"
        "provisioning" 900 1 10 2 900 1 0 0).2 =
      some (CreateOutcome.ok (mkCluster "c1" "provisioning"))) ∧
    (mkCluster "c1" "provisioning").status = "provisioning" := by
  refine ⟨(C8_status_classification_trichotomy "provisioning" "mystery").2.2.1,
    by decide, ?_⟩
  exact (C8_status_classification_trichotomy "provisioning"
    "provisioning").2.2.2 (fun _ => mkCluster "c1" "provisioning")
    (fun _ => 0) "c1" 900 1 10 2 900 0 1 0 (mkCluster "c1" "provisioning")
    (by decide)

/-- C9: for every action token other than the supported delete action and
every id or id list, `ClustersService.action` raises the `ValueError`
synchronously and issues no HTTP request at all. -/
theorem C9_invalid_action_fails_before_network (ids : String ⊕ List String)
    (act : String) (hact : act ≠ Actions.DELETE) :
    action ids act =
      ([], some ("Invalid action: " ++ act ++
        ". Only DELETE is supported.")) := by
  simp only [action, if_pos hact]

/-- Witness for C9: the token `"start"` is rejected with the `ValueError`
message and an empty request list. -/
theorem C9_witness :
    ("start" ≠ Actions.DELETE) ∧
    action (Sum.inl "c1") "start" =
      ([], some "Invalid action: start. Only DELETE is supported.") := by
  refine ⟨by decide, ?_⟩
  have h := C9_invalid_action_fails_before_network (Sum.inl "c1") "start"
    (by decide)
  rw [h]
  decide

/-- C10: `ClustersService.action` with the delete token issues exactly one PUT
to `/clusters` whose payload holds one `{id, action: 'discontinue'}` entry per
given id in the given order (a single string id yielding a singleton list) —
the public `delete` token is translated to the wire action `discontinue` —
and `ClustersService.delete cluster_id` performs exactly this singleton call. -/
theorem C10_delete_action_wire_payload (cluster_id : String)
    (ids : List String) :
    (action (Sum.inl cluster_id) Actions.DELETE =
      ([PutRequest.mk CLUSTERS_ENDPOINT
          [ActionEntry.mk cluster_id "discontinue"]], none))
    ∧ (action (Sum.inr ids) Actions.DELETE =
      ([PutRequest.mk CLUSTERS_ENDPOINT
          (ids.map fun id => ActionEntry.mk id "discontinue")], none))
    ∧ (delete cluster_id =
      ([PutRequest.mk CLUSTERS_ENDPOINT
          [ActionEntry.mk cluster_id "discontinue"]], none))
    ∧ ((action (Sum.inr ids) Actions.DELETE).1.length = 1) := by
  refine ⟨?_, ?_, ?_, ?_⟩ <;> simp [action, delete, Actions.DELETE]

end Verda
